import Mathlib

/-!
Verification of the sandboxed code-execution engine of the chat-data
repository (`backend/app/services/code_executor.py`), as a shallow
embedding in Lean.

Modelling conventions:
* Python byte strings are `List Nat`; Python text strings are `String`.
* The MinIO blob store and the scratch directory are association lists
  from path (resp. file name) to byte content.
* A raised Python exception is an `Except.error` carrying the exception
  class name and its `str` message.
* The pandas parsers, and the semantics of the untrusted snippet handed
  to `exec`, are external collaborators: they enter the model as function
  parameters.  `exec` can read the globals mapping it is given and create
  or change scratch files; it has no other channel (the restricted
  builtins expose no file, process or import capability).
* Wall-clock time is not modelled; the `asyncio.wait_for` timeout branch
  of `execute` is therefore outside this development.
-/

namespace ChatData

/-- A raised Python exception: its class name and its `str` text. -/
structure PyError where
  name : String
  msg : String
deriving DecidableEq

/-- The in-memory pandas dataframe, reduced to the fields the executor
reads: `df.shape`, `df.columns`, `df.dtypes` (column name to dtype name). -/
structure DataFrame where
  nrows : Nat
  ncols : Nat
  columns : List String
  dtypes : List (String × String)
deriving DecidableEq

/-- The ORM `Dataset` row, reduced to the fields `execute` reads. -/
structure Dataset where
  id : String
  file_path : String
deriving DecidableEq

/-- Python `str.endswith`: suffix test on the character data. -/
def endswith (s pat : String) : Bool :=
  pat.data.isSuffixOf s.data

/-- The external pandas parsers `read_csv`, `read_excel`, `read_json`:
each turns fetched bytes into a dataframe or raises. -/
structure Parsers where
  read_csv : List Nat → Except PyError DataFrame
  read_excel : List Nat → Except PyError DataFrame
  read_json : List Nat → Except PyError DataFrame

/-- `minio_client.get_object(bucket, path).read()`: the object's bytes,
or the client's error when no object lives at the path. -/
def get_object (store : List (String × List Nat)) (path : String) :
    Except PyError (List Nat) :=
  match store.lookup path with
  | some content => Except.ok content
  | none => Except.error { name := "S3Error", msg := "NoSuchKey: " ++ path }

/-- `CodeExecutor._load_data`: fetch the dataset bytes from the blob
store, then dispatch on the file extension; any extension other than
`.csv`, `.xlsx`, `.json` raises `ValueError("Unsupported file type: …")`. -/
def load_data (P : Parsers) (store : List (String × List Nat))
    (file_path : String) : Except PyError DataFrame :=
  match get_object store file_path with
  | Except.error e => Except.error e
  | Except.ok content =>
    if endswith file_path ".csv" then P.read_csv content
    else if endswith file_path ".xlsx" then P.read_excel content
    else if endswith file_path ".json" then P.read_json content
    else
      Except.error
        { name := "ValueError", msg := "Unsupported file type: " ++ file_path }

/-- A value bound in the sandbox globals: a module object, the inert
`print` lambda, or the restricted `__builtins__` dict. -/
inductive Capability
  | module (name : String)
  | printNoop
  | builtins (names : List String)
deriving DecidableEq

/-- The names in the restricted `__builtins__` dict of `_safe_execute`. -/
def safe_builtins : List String :=
  ["len", "str", "int", "float", "bool", "list", "dict", "range",
   "enumerate", "zip", "sum", "min", "max", "abs", "round", "sorted",
   "isinstance", "type"]

/-- The `safe_globals` mapping built by `_safe_execute`: the complete
environment handed to `exec`. -/
def safe_globals : List (String × Capability) :=
  [("pd", Capability.module "pandas"),
   ("plt", Capability.module "matplotlib.pyplot"),
   ("np", Capability.module "numpy"),
   ("json", Capability.module "json"),
   ("print", Capability.printNoop),
   ("__builtins__", Capability.builtins safe_builtins)]

/-- Name lookup in an execution environment. -/
def lookupEnv (env : List (String × Capability)) (name : String) :
    Option Capability :=
  env.lookup name

/-- What running the snippet's top-level statements can do: finish,
leaving the scratch directory in a new state, or raise. -/
inductive ExecOutcome
  | ok (files : List (String × List Nat))
  | raise (e : PyError)

/-- The semantics of one snippet under `exec`: a function of the globals
mapping it is given and of the scratch directory it can write to. -/
abbrev ExecBehavior :=
  List (String × Capability) → List (String × List Nat) → ExecOutcome

/-- What `sys.stdout` refers to: the process terminal stream
(`_io.TextIOWrapper`) or an in-memory capture buffer (`io.StringIO`). -/
inductive StdoutVal
  | terminal
  | capture (buf : String)
deriving DecidableEq

/-- Calling a stream object, as in `old_stdout()`: stream objects define
no `__call__`, so Python raises a TypeError naming the stream's type. -/
def callAsFunction : StdoutVal → PyError
  | StdoutVal.terminal =>
      { name := "TypeError", msg := "'_io.TextIOWrapper' object is not callable" }
  | StdoutVal.capture _ =>
      { name := "TypeError", msg := "'_io.StringIO' object is not callable" }

/-- `getvalue()` on the stream currently installed as `sys.stdout`. -/
def captureValue : StdoutVal → String
  | StdoutVal.terminal => ""
  | StdoutVal.capture b => b

/-- The mutable state an execution touches: the process-global
`sys.stdout`, the scratch directory `/tmp/visualizations` (file name to
bytes), and the blob store (object path to bytes). -/
structure World where
  stdout : StdoutVal
  files : List (String × List Nat)
  store : List (String × List Nat)
deriving DecidableEq

/-- An open binary file handle: its content and its current position. -/
structure FileHandle where
  content : List Nat
  pos : Nat
deriving DecidableEq

/-- `f.seek(0, 2)`: move to end of file and return the new position
(which equals the file size). -/
def seekEnd (f : FileHandle) : FileHandle × Nat :=
  ({ f with pos := f.content.length }, f.content.length)

/-- `minio_client.put_object(bucket, path, f, length)`: reads `length`
bytes starting at the stream's current position; if the stream cannot
supply that many bytes the client raises, otherwise the read bytes are
stored under the path. -/
def put_object (store : List (String × List Nat)) (object_path : String)
    (f : FileHandle) (length : Nat) :
    Except PyError (List (String × List Nat)) :=
  let available := f.content.drop f.pos
  if available.length < length then
    Except.error { name := "IOError", msg := "stream having not enough data" }
  else
    Except.ok ((object_path, available.take length) :: store)

/-- Python `Path(name).suffix`: the characters from the last dot on,
provided that dot is neither the first character nor the last. -/
def rfindDot : List Char → Option Nat
  | [] => none
  | c :: rest =>
    match rfindDot rest with
    | some i => some (i + 1)
    | none => if c = '.' then some 0 else none

/-- See `rfindDot`; mirrors `pathlib`'s suffix computation. -/
def pathSuffix (name : String) : String :=
  match rfindDot name.data with
  | some i =>
      if 0 < i ∧ i < name.data.length - 1 then { data := name.data.drop i }
      else ""
  | none => ""

/-- Python `s.lstrip(".")`: drop every leading dot. -/
def lstripDot (s : String) : String :=
  { data := s.data.dropWhile (fun c => c = '.') }

/-- The object path `_upload_chart` stores under:
`f"charts/{chart_id}{chart_path.suffix}"`. -/
def upload_object_path (chart_id : String) (file_name : String) : String :=
  "charts/" ++ chart_id ++ pathSuffix file_name

/-- `CodeExecutor._upload_chart`: open the scratch file, and call
`put_object(bucket, object_path, f, f.seek(0, 2), …)`.  Python evaluates
the arguments left to right, so the `f.seek(0, 2)` both yields the byte
length and leaves the handle positioned at end of file before any read. -/
def upload_chart (store : List (String × List Nat)) (chart_id : String)
    (file_name : String) (content : List Nat) :
    Except PyError (List (String × List Nat)) :=
  let f : FileHandle := { content := content, pos := 0 }
  let seeked := seekEnd f
  put_object store (upload_object_path chart_id file_name) seeked.1 seeked.2

/-- One `ArtifactRef` dict appended by `_find_charts`. -/
structure Chart where
  id : String
  type : String
  format : String
deriving DecidableEq

/-- The glob pattern of `_find_charts`, as its literal text before the
trailing `*`: `chart_*` without a conversation id, `chart_{cid}_*` with
one.  A pattern of this shape matches exactly the directory entries whose
name extends the literal part. -/
def chartGlobPat : Option String → String
  | none => "chart_"
  | some cid => "chart_" ++ cid ++ "_"

/-- Whether a literal-plus-`*` glob pattern matches a file name. -/
def globMatch (pat name : String) : Bool :=
  pat.data.isPrefixOf name.data

/-- The loop body of `_find_charts` over the directory listing: for each
matching file, draw a fresh uuid, upload, unlink, and append an
`ArtifactRef`; an exception from the upload aborts the loop, losing the
refs gathered so far and leaving the current and later files in place.
Returns (result, blob store, remaining directory listing). -/
def find_charts_loop (pat : String) (uuidGen : Nat → String) (idx : Nat)
    (store : List (String × List Nat)) (files : List (String × List Nat)) :
    Except PyError (List Chart) × List (String × List Nat) × List (String × List Nat) :=
  match files with
  | [] => (Except.ok [], store, [])
  | (name, content) :: rest =>
    if globMatch pat name then
      let cid := uuidGen idx
      match upload_chart store cid name content with
      | Except.error e => (Except.error e, store, (name, content) :: rest)
      | Except.ok store1 =>
        match find_charts_loop pat uuidGen (idx + 1) store1 rest with
        | (Except.ok charts, store2, rest2) =>
            (Except.ok ({ id := cid, type := "image",
                          format := lstripDot (pathSuffix name) } :: charts),
             store2, rest2)
        | (Except.error e, store2, rest2) => (Except.error e, store2, rest2)
    else
      match find_charts_loop pat uuidGen idx store rest with
      | (res, store1, rest1) => (res, store1, (name, content) :: rest1)

/-- `CodeExecutor._find_charts` on a world: scan the scratch directory
with the run's pattern, uploading and unlinking each match. -/
def find_charts (pat : String) (uuidGen : Nat → String) (w : World) :
    Except PyError (List Chart) × World :=
  match find_charts_loop pat uuidGen 0 w.store w.files with
  | (res, store1, files1) => (res, { w with store := store1, files := files1 })

/-- The execution context dict built by `execute`. -/
structure Context where
  dataset_path : String
  dataset_id : String
  output_dir : String
  conversation_id : Option String

/-- The structured execution result dict. -/
inductive ExecResult
  | success (shape : Nat × Nat) (columns : List String)
      (dtypes : List (String × String)) (output : Option String)
      (charts : List Chart)
  | failure (error : String) (message : String)
deriving DecidableEq

/-- `CodeExecutor._safe_execute`: build `safe_globals`, swap
`sys.stdout` for a fresh `StringIO`, load the dataset (an exception here
escapes with the capture still installed), run the snippet under
`try`/`except` — the `except` clause executes `sys.stdout = old_stdout()`,
which calls the saved stream object and therefore raises a TypeError
before reaching `raise e` — and on the success path read the capture,
restore `sys.stdout`, collect charts (whose exceptions reach the same
broken `except` clause) and assemble the success dict. -/
def safe_execute (execB : ExecBehavior) (P : Parsers) (uuidGen : Nat → String)
    (ctx : Context) (w : World) : Except PyError ExecResult × World :=
  let old_stdout := w.stdout
  let w1 : World := { w with stdout := StdoutVal.capture "" }
  match load_data P w1.store ctx.dataset_path with
  | Except.error e => (Except.error e, w1)
  | Except.ok df =>
    match execB safe_globals w1.files with
    | ExecOutcome.raise _ => (Except.error (callAsFunction old_stdout), w1)
    | ExecOutcome.ok files2 =>
      let output := captureValue w1.stdout
      let w2 : World := { w1 with stdout := old_stdout, files := files2 }
      match find_charts (chartGlobPat ctx.conversation_id) uuidGen w2 with
      | (Except.error _, w3) => (Except.error (callAsFunction old_stdout), w3)
      | (Except.ok charts, w3) =>
          (Except.ok (ExecResult.success (df.nrows, df.ncols) df.columns
              df.dtypes (if output = "" then none else some output) charts),
           w3)

/-- The context dict `execute` prepares for a found dataset. -/
def executionContext (ds : Dataset) (dataset_id : String)
    (conversation_id : Option String) : Context :=
  { dataset_path := ds.file_path, dataset_id := dataset_id,
    output_dir := "/tmp/visualizations", conversation_id := conversation_id }

/-- `CodeExecutor.execute`: resolve the dataset row — a missing dataset
raises `ValueError("Dataset not found")` before the `try` block, so that
exception escapes to the caller — then run `_safe_execute` on the worker;
its `try`/`except Exception` converts any exception raised there into a
failure dict.  The `asyncio.wait_for` timeout branch is not part of this
untimed model.  The first component is `Except.error` exactly when an
exception propagates out of `execute` to the caller. -/
def execute (db : List Dataset) (P : Parsers) (execB : ExecBehavior)
    (uuidGen : Nat → String) (dataset_id : String)
    (conversation_id : Option String) (w : World) :
    Except PyError ExecResult × World :=
  match db.find? (fun d => d.id == dataset_id) with
  | none =>
      (Except.error { name := "ValueError", msg := "Dataset not found" }, w)
  | some ds =>
    match safe_execute execB P uuidGen
        (executionContext ds dataset_id conversation_id) w with
    | (Except.ok r, w1) => (Except.ok r, w1)
    | (Except.error e, w1) =>
        (Except.ok (ExecResult.failure e.name e.msg), w1)

/-- The object path addressed by `CodeExecutor.get_chart_url`:
`f"charts/{chart_id}"` (the presigned-URL generation itself is the
external MinIO client; what the core determines is the path). -/
def get_chart_url_object_path (chart_id : String) : String :=
  "charts/" ++ chart_id

/-- Substring search: does `pat` occur contiguously in `s`? -/
def containsSeg (pat s : List Char) : Bool :=
  match s with
  | [] => pat.isEmpty
  | _ :: rest => pat.isPrefixOf s || containsSeg pat rest

/-- Case-sensitive textual containment. -/
def strContains (s pat : String) : Bool :=
  containsSeg pat.data s.data

/-- Case-insensitive textual containment of a lowercase pattern. -/
def lowerContains (s pat : String) : Bool :=
  containsSeg pat.data (s.data.map Char.toLower)

/-! ## Concrete fixtures for the scenario theorems -/

/-- Parsers whose `read_csv` yields the 3-row, 2-column dataframe of
spec scenario 1. -/
def demoParsers : Parsers :=
  { read_csv := fun _ =>
      Except.ok ⟨3, 2, ["a", "b"], [("a", "int64"), ("b", "int64")]⟩,
    read_excel := fun _ => Except.error ⟨"ValueError", "not an excel file"⟩,
    read_json := fun _ => Except.error ⟨"ValueError", "not a json file"⟩ }

/-- Python semantics of the scenario-1 snippet
`df_copy = dataset` / `shape = df_copy.shape`: its first statement reads
the free name `dataset`; in an environment that binds it the snippet
finishes without touching the scratch directory, and in one that does not
it raises `NameError`. -/
def scenario1Snippet : ExecBehavior := fun g files =>
  match lookupEnv g "dataset" with
  | some _ => ExecOutcome.ok files
  | none => ExecOutcome.raise ⟨"NameError", "name 'dataset' is not defined"⟩

/-- Python semantics of the snippet `1/0`: it raises
`ZeroDivisionError: division by zero` in every environment. -/
def zeroDivisionSnippet : ExecBehavior := fun _ _ =>
  ExecOutcome.raise ⟨"ZeroDivisionError", "division by zero"⟩

/-- Python semantics of a snippet with no effect (e.g. `pass`). -/
def passSnippet : ExecBehavior := fun _ files => ExecOutcome.ok files

/-- Python semantics of a snippet that saves one 4-byte image to the
scratch directory under run `c1`'s naming convention. -/
def chartWriterSnippet : ExecBehavior := fun _ files =>
  ExecOutcome.ok (files ++ [("chart_c1_1.png", [137, 80, 78, 71])])

/-- A deterministic stand-in for the `uuid.uuid4()` draws. -/
def uuidSeq : Nat → String := fun n => "u" ++ toString n

/-- Initial state: real stdout, empty scratch directory, a blob store
holding one CSV dataset object. -/
def demoWorld : World :=
  { stdout := StdoutVal.terminal, files := [],
    store := [("data/d.csv", [1, 2, 3])] }

/-! ## Helper lemmas -/

theorem containsSeg_of_isPrefix {pat s : List Char} (h : pat <+: s) :
    containsSeg pat s = true := by
  cases s with
  | nil =>
    have hp : pat = [] := List.prefix_nil.mp h
    subst hp
    rfl
  | cons c rest =>
    have hb : pat.isPrefixOf (c :: rest) = true :=
      List.isPrefixOf_iff_prefix.mpr h
    unfold containsSeg
    rw [hb]
    rfl

theorem lowerContains_unsupported (s : String) :
    lowerContains ("Unsupported file type: " ++ s) "unsupported file type" = true := by
  unfold lowerContains
  rw [String.data_append, List.map_append]
  have h1 : ("Unsupported file type: ").data.map Char.toLower =
      ("unsupported file type").data ++ (": ").data := by decide
  rw [h1, List.append_assoc]
  exact containsSeg_of_isPrefix (List.prefix_append _ _)

theorem chartGlobPat_no_cross (c1 c2 rest : String)
    (h1 : c1.data.length = c2.data.length) (h2 : c1.data ≠ c2.data) :
    globMatch (chartGlobPat (some c1)) ("chart_" ++ c2 ++ "_" ++ rest) = false := by
  unfold globMatch chartGlobPat
  refine Bool.eq_false_iff.mpr ?_
  intro hb
  have hp := List.isPrefixOf_iff_prefix.mp hb
  simp only [String.data_append, List.append_assoc,
    List.prefix_append_right_inj] at hp
  obtain ⟨t, ht⟩ := hp
  have h4 := congrArg (List.take c1.data.length) ht
  rw [List.append_assoc] at h4
  rw [List.take_left' rfl, List.take_left' h1.symm] at h4
  exact h2 h4

/-! ## Claim theorems -/

/-- Claim C1: the claim expects the loaded dataset and the scratch
output-directory path to be bound into the snippet's environment under
fixed names, so that scenario 1 succeeds with shape (3, 2).  On the code
this fails: `safe_globals` binds neither `dataset` nor `dataset_path` nor
`output_dir`, so the scenario-1 snippet raises `NameError` and — after
the except clause's broken `old_stdout()` call — the run is reported as a
TypeError failure instead of `Success` with shape (3, 2). -/
theorem scenario1_dataset_unbound :
    lookupEnv safe_globals "dataset" = none ∧
    lookupEnv safe_globals "dataset_path" = none ∧
    lookupEnv safe_globals "output_dir" = none ∧
    (execute [⟨"d1", "data/d.csv"⟩] demoParsers scenario1Snippet uuidSeq
        "d1" none demoWorld).1 =
      Except.ok (ExecResult.failure "TypeError"
        "'_io.TextIOWrapper' object is not callable") :=
  ⟨rfl, rfl, rfl, rfl⟩

/-- Claim C2: the claim expects the snippet `1/0` to yield a failure
whose message names `ZeroDivisionError`.  On the code the fault is indeed
contained (the caller receives a failure value, nothing propagates), but
the except clause executes `sys.stdout = old_stdout()`, which raises a
TypeError that replaces the original exception, so the reported message
never mentions `ZeroDivisionError`. -/
theorem zero_division_reported_as_type_error :
    (execute [⟨"d1", "data/d.csv"⟩] demoParsers zeroDivisionSnippet uuidSeq
        "d1" none demoWorld).1 =
      Except.ok (ExecResult.failure "TypeError"
        "'_io.TextIOWrapper' object is not callable") ∧
    strContains "'_io.TextIOWrapper' object is not callable"
        "ZeroDivisionError" = false :=
  ⟨rfl, rfl⟩

/-- Claim C3, counterexample: a dataset reference that resolves to no
dataset makes `execute` raise `ValueError("Dataset not found")` to the
caller — the check sits before the `try` block — so not every fault is
converted into a Failure value. -/
theorem missing_dataset_raises_to_caller :
    (execute [] demoParsers passSnippet uuidSeq "missing" none
        demoWorld).1 =
      Except.error { name := "ValueError", msg := "Dataset not found" } :=
  rfl

/-- Claim C3, amended: whenever the dataset reference does resolve,
every fault raised during loading, execution or collection is converted
into a returned failure value; `execute` then never lets an exception
escape to the caller. -/
theorem execute_no_raise_when_dataset_resolves
    (db : List Dataset) (P : Parsers) (execB : ExecBehavior)
    (uuidGen : Nat → String) (did : String) (cid : Option String)
    (w : World) (ds : Dataset)
    (h : db.find? (fun d => d.id == did) = some ds) :
    ∃ r, (execute db P execB uuidGen did cid w).1 = Except.ok r := by
  unfold execute
  split
  · rename_i heq
    rw [h] at heq
    simp at heq
  · rename_i ds1 heq
    split
    · rename_i r w1 hse
      exact ⟨r, rfl⟩
    · rename_i e w1 hse
      exact ⟨ExecResult.failure e.name e.msg, rfl⟩

/-- Witness for the amended C3 theorem at a concrete resolving request. -/
theorem execute_no_raise_when_dataset_resolves_witness :
    ∃ r, (execute [⟨"d1", "data/d.csv"⟩] demoParsers passSnippet uuidSeq
        "d1" none demoWorld).1 = Except.ok r :=
  execute_no_raise_when_dataset_resolves _ _ _ _ _ _ _ ⟨"d1", "data/d.csv"⟩ rfl

/-- Claim C4: the claim expects a run whose snippet writes one chart
file to end in Success with one artifact whose stored bytes equal the
file's bytes, the scratch file being deleted.  On the code
`_upload_chart` passes `f.seek(0, 2)` as the upload length, which leaves
the stream at end of file before it is read, so the store client finds no
bytes to read and raises; the run is reported as a TypeError failure, the
scratch file survives, and nothing is stored under `charts/`. -/
theorem chart_upload_seek_loses_bytes :
    upload_chart [] "u0" "chart_c1_1.png" [137, 80, 78, 71] =
      Except.error { name := "IOError", msg := "stream having not enough data" } ∧
    execute [⟨"d1", "data/d.csv"⟩] demoParsers chartWriterSnippet uuidSeq
        "d1" (some "c1") demoWorld =
      (Except.ok (ExecResult.failure "TypeError"
          "'_io.TextIOWrapper' object is not callable"),
       { stdout := StdoutVal.terminal,
         files := [("chart_c1_1.png", [137, 80, 78, 71])],
         store := [("data/d.csv", [1, 2, 3])] }) :=
  ⟨rfl, rfl⟩

/-- Claim C5, counterexample: a run with an absent correlation id scans
with the generic pattern `chart_*`, so it collects — and unlinks — a
(here empty) file that a concurrent run with correlation id `abc`
produced under its own naming convention `chart_abc_*`. -/
theorem collector_without_id_takes_foreign_file :
    find_charts (chartGlobPat none) uuidSeq
        { stdout := StdoutVal.terminal,
          files := [("chart_abc_1.png", [])], store := [] } =
      (Except.ok [{ id := "u0", type := "image", format := "png" }],
       { stdout := StdoutVal.terminal, files := [],
         store := [("charts/u0.png", [])] }) :=
  rfl

/-- Claim C5, amended: when both concurrent runs carry correlation ids
of equal length (uuid strings all have length 36) and the ids differ,
the collector of one run never touches a file named under the other
run's convention. -/
theorem collector_distinct_ids_no_cross
    (c1 c2 rest : String) (content : List Nat) (so : StdoutVal)
    (store : List (String × List Nat)) (uuidGen : Nat → String)
    (h1 : c1.data.length = c2.data.length) (h2 : c1.data ≠ c2.data) :
    find_charts (chartGlobPat (some c1)) uuidGen
        { stdout := so, files := [("chart_" ++ c2 ++ "_" ++ rest, content)],
          store := store } =
      (Except.ok [],
       { stdout := so, files := [("chart_" ++ c2 ++ "_" ++ rest, content)],
         store := store }) := by
  have hm := chartGlobPat_no_cross c1 c2 rest h1 h2
  unfold find_charts
  unfold find_charts_loop
  rw [hm]
  simp [find_charts_loop]

/-- Witness for the amended C5 theorem at concrete distinct ids. -/
theorem collector_distinct_ids_no_cross_witness :
    find_charts (chartGlobPat (some "aa")) uuidSeq
        { stdout := StdoutVal.terminal,
          files := [("chart_" ++ "ab" ++ "_" ++ "1.png", [7])], store := [] } =
      (Except.ok [],
       { stdout := StdoutVal.terminal,
         files := [("chart_" ++ "ab" ++ "_" ++ "1.png", [7])], store := [] }) :=
  collector_distinct_ids_no_cross "aa" "ab" "1.png" [7] StdoutVal.terminal
    [] uuidSeq (by decide) (by decide)

/-- Claim C9: the claim expects the stdout redirection to be undone on
every path.  On the code the failure path's restore statement is
`sys.stdout = old_stdout()`, whose right-hand side raises before
assigning, so after a `1/0` run the process-global stdout is still the
capture buffer rather than the terminal stream it was before the call. -/
theorem stdout_not_restored_on_fault :
    demoWorld.stdout = StdoutVal.terminal ∧
    (execute [⟨"d1", "data/d.csv"⟩] demoParsers zeroDivisionSnippet uuidSeq
        "d1" none demoWorld).2.stdout = StdoutVal.capture "" :=
  ⟨rfl, rfl⟩

/-- Claim C10: the claim expects `get_chart_url` to address the object
path `_upload_chart` stored under.  On the code the upload path keeps the
file's suffix (`charts/<id>.png`) while the retrieval path drops it
(`charts/<id>`), so retrieval by artifact id addresses a path where
nothing was stored. -/
theorem chart_url_path_mismatch :
    upload_object_path "abc" "chart_1.png" = "charts/abc.png" ∧
    get_chart_url_object_path "abc" = "charts/abc" ∧
    upload_object_path "abc" "chart_1.png" ≠ get_chart_url_object_path "abc" :=
  ⟨rfl, rfl, by decide⟩

/-- Claim C6: a request whose dataset path carries an extension outside
the supported set (`.csv`, `.xlsx`, `.json`) fails — whatever the snippet
would do — with a load-stage `ValueError` whose message contains
"unsupported file type" (up to letter case, as the message reads
`Unsupported file type: <path>`), and the snippet is never run: the
result is the same for every snippet semantics `execB`. -/
theorem unsupported_extension_loadfault
    (db : List Dataset) (P : Parsers) (execB : ExecBehavior)
    (uuidGen : Nat → String) (did : String) (cid : Option String)
    (w : World) (ds : Dataset) (content : List Nat)
    (hfind : db.find? (fun d => d.id == did) = some ds)
    (hobj : w.store.lookup ds.file_path = some content)
    (hcsv : endswith ds.file_path ".csv" = false)
    (hxlsx : endswith ds.file_path ".xlsx" = false)
    (hjson : endswith ds.file_path ".json" = false) :
    (execute db P execB uuidGen did cid w).1 =
      Except.ok (ExecResult.failure "ValueError"
        ("Unsupported file type: " ++ ds.file_path)) ∧
    lowerContains ("Unsupported file type: " ++ ds.file_path)
        "unsupported file type" = true := by
  refine ⟨?_, lowerContains_unsupported ds.file_path⟩
  have hget : get_object w.store ds.file_path = Except.ok content := by
    unfold get_object
    rw [hobj]
  have hload : load_data P w.store ds.file_path = Except.error
      { name := "ValueError", msg := "Unsupported file type: " ++ ds.file_path } := by
    unfold load_data
    rw [hget]
    simp [hcsv, hxlsx, hjson]
  have hsafe : safe_execute execB P uuidGen (executionContext ds did cid) w =
      (Except.error
        { name := "ValueError", msg := "Unsupported file type: " ++ ds.file_path },
       { w with stdout := StdoutVal.capture "" }) := by
    unfold safe_execute
    dsimp only [executionContext]
    rw [hload]
  unfold execute
  split
  · rename_i heq
    rw [hfind] at heq
    simp at heq
  · rename_i ds1 heq
    rw [hfind] at heq
    injection heq with h2
    subst h2
    rw [hsafe]

/-- Witness for the C6 theorem at the spec's `.xyz` scenario. -/
theorem unsupported_extension_loadfault_witness :
    (execute [⟨"d1", "data/f.xyz"⟩] demoParsers passSnippet uuidSeq "d1" none
        { stdout := StdoutVal.terminal, files := [],
          store := [("data/f.xyz", [0])] }).1 =
      Except.ok (ExecResult.failure "ValueError"
        ("Unsupported file type: " ++ "data/f.xyz")) ∧
    lowerContains ("Unsupported file type: " ++ "data/f.xyz")
        "unsupported file type" = true :=
  unsupported_extension_loadfault _ _ _ _ _ _ _ ⟨"d1", "data/f.xyz"⟩ [0]
    rfl rfl rfl rfl rfl

/-- Claim C8: when a run returns Success, the reported shape, column
names and column dtypes are exactly those of the dataframe freshly loaded
for that run — for every snippet semantics — and the environment handed
to the snippet exposes no reference to the loaded dataframe (neither
`dataset` nor `df` is bound in `safe_globals`). -/
theorem success_reports_fresh_dataframe
    (db : List Dataset) (P : Parsers) (execB : ExecBehavior)
    (uuidGen : Nat → String) (did : String) (cid : Option String)
    (w : World) (ds : Dataset) (shape : Nat × Nat) (cols : List String)
    (dts : List (String × String)) (out : Option String) (ch : List Chart)
    (hfind : db.find? (fun d => d.id == did) = some ds)
    (hres : (execute db P execB uuidGen did cid w).1 =
      Except.ok (ExecResult.success shape cols dts out ch)) :
    lookupEnv safe_globals "dataset" = none ∧
    lookupEnv safe_globals "df" = none ∧
    ∃ df, load_data P w.store ds.file_path = Except.ok df ∧
      shape = (df.nrows, df.ncols) ∧ cols = df.columns ∧ dts = df.dtypes := by
  refine ⟨rfl, rfl, ?_⟩
  unfold execute at hres
  split at hres
  · rename_i heq
    rw [hfind] at heq
    simp at heq
  · rename_i ds1 heq
    rw [hfind] at heq
    injection heq with h2
    subst h2
    split at hres
    · rename_i r w1 hse
      have hr : r = ExecResult.success shape cols dts out ch := by
        simpa using hres
      subst hr
      unfold safe_execute at hse
      dsimp only [executionContext] at hse
      split at hse
      · rename_i e hld
        simp at hse
      · rename_i df hld
        split at hse
        · rename_i e
          simp at hse
        · rename_i files2 hex
          split at hse
          · rename_i e w3 hfc
            simp at hse
          · rename_i charts w3 hfc
            obtain ⟨⟨hsh, hcols, hdts, hout, hch⟩, hw⟩ :
                ((df.nrows, df.ncols) = shape ∧ df.columns = cols ∧
                 df.dtypes = dts ∧
                 (if captureValue (StdoutVal.capture "") = "" then none
                   else some (captureValue (StdoutVal.capture ""))) = out ∧
                 charts = ch) ∧ w3 = w1 := by
              simpa using hse
            exact ⟨df, hld, hsh.symm, hcols.symm, hdts.symm⟩
    · rename_i e w1 hse
      simp at hres

/-- Witness for the C8 theorem at a concrete successful run. -/
theorem success_reports_fresh_dataframe_witness :
    lookupEnv safe_globals "dataset" = none ∧
    lookupEnv safe_globals "df" = none ∧
    ∃ df, load_data demoParsers demoWorld.store
        (Dataset.mk "d1" "data/d.csv").file_path = Except.ok df ∧
      ((3, 2) : Nat × Nat) = (df.nrows, df.ncols) ∧
      ["a", "b"] = df.columns ∧
      [("a", "int64"), ("b", "int64")] = df.dtypes :=
  success_reports_fresh_dataframe [⟨"d1", "data/d.csv"⟩] demoParsers
    passSnippet uuidSeq "d1" none demoWorld ⟨"d1", "data/d.csv"⟩ (3, 2)
    ["a", "b"] [("a", "int64"), ("b", "int64")] none [] rfl rfl

end ChatData
